import Mathlib

/-!
Verification of the `bidirpc` session multiplexer (`src/session.go`).

The Go source under `src/` contains `session.go` only; the sibling files
(header codec, buffer pool, stream, codec bridges) are absent, so those
collaborators are modelled from the spec where the claims need them, and
each such definition is marked `Modelled from the spec:`.

Machine integers: Go `int` is modelled as `Int` where the sign matters
(buffer-pool size) and as `Nat` for byte values and lengths that the wire
format keeps non-negative.
-/

namespace Bidirpc

/-- `streamTypeYin byte = 1` from session.go. -/
def streamTypeYin : Nat := 1

/-- `streamTypeYang byte = 2` from session.go. -/
def streamTypeYang : Nat := 2

/-- `defaultBufferPoolSize = 16` from session.go. -/
def defaultBufferPoolSize : Int := 16

/-- Modelled from the spec: the buffer pool lives in a repository file absent
from `src/`.  Spec §4.2: a fixed-capacity cache; `Get` returns a pooled buffer
or allocates a fresh one (never blocks, never fails); `Put` returns the buffer
if capacity remains, otherwise discards it.  We track the capacity and the
number of currently pooled buffers. -/
structure bufferPool where
  size : Int
  count : Nat
deriving DecidableEq, Repr

/-- Modelled from the spec: pool construction; starts empty at the given capacity. -/
def newBufferPool (size : Int) : bufferPool := ⟨size, 0⟩

/-- Modelled from the spec: `Get` takes a pooled buffer when one is cached,
otherwise allocates fresh; it never blocks or fails. -/
def bufferPool.Get (bp : bufferPool) : bufferPool :=
  if bp.count = 0 then bp else { bp with count := bp.count - 1 }

/-- Modelled from the spec: `Put` re-pools the buffer while capacity remains,
otherwise discards it, so the pool never exceeds its configured size. -/
def bufferPool.Put (bp : bufferPool) : bufferPool :=
  if (bp.count : Int) < bp.size then { bp with count := bp.count + 1 } else bp

/-- The close causes `doClose` is invoked with in session.go (the code wraps
them with `fmt.Errorf`; only their identity matters here). -/
inductive CloseReason where
  | headerReadErr
  | invalidHeader
  | bodyReadErr
  | writeErr
deriving DecidableEq, Repr

/-- An opaque connection-level error value, as returned by `conn.Write`. -/
structure ConnErr where
  code : Nat
deriving DecidableEq, Repr

/-- The observable state of a `Session` (session.go): the construction-time
bindings (pool size, which fixed tag each RPC codec is bound to) and the
close-lifecycle flags (`closed`, whether `closedC` has been closed, whether
the connection and the generic RPC client handle have been closed). -/
structure Session where
  yinOrYang : Bool
  poolSize : Int
  clientStreamTag : Nat
  serverStreamTag : Nat
  closed : Bool
  closedCClosed : Bool
  connClosed : Bool
  clientClosed : Bool
deriving DecidableEq, Repr

/-- `NewSession` (session.go lines 39-69): substitutes the default pool size
only when `bufferPoolSize == 0`; binds the client codec to the yin stream
(tag 1) and the server codec to the yang stream (tag 2) when `yinOrYang` is
true, and the other way around when it is false; returns the session and a
nil error unconditionally. -/
def NewSession (yinOrYang : Bool) (bufferPoolSize : Int) : Session × Option ConnErr :=
  let sz := if bufferPoolSize = 0 then defaultBufferPoolSize else bufferPoolSize
  let cliTag := if yinOrYang then streamTypeYin else streamTypeYang
  let svrTag := if yinOrYang then streamTypeYang else streamTypeYin
  (⟨yinOrYang, sz, cliTag, svrTag, false, false, false, false⟩, none)

/-- `Session.doClose` (session.go lines 168-181): under `closeLock`, returns at
once when `closed` is already set; otherwise sets `closed`, closes `closedC`,
closes the connection and closes the RPC client handle.  The `err` argument is
accepted and discarded, exactly as in the code (it is only used by a
commented-out debug print). -/
def doClose (s : Session) (_err : Option CloseReason) : Session :=
  if s.closed then s
  else { s with closed := true, closedCClosed := true,
                connClosed := true, clientClosed := true }

/-- `Session.Close` (session.go lines 105-108): calls `doClose(nil)` and
returns nil. -/
def Session.Close (s : Session) : Session × Option ConnErr :=
  (doClose s none, none)

/-- Modelled from the spec: the generic RPC engine (net/rpc) is an external
collaborator; after the client handle is closed, every call fails immediately
with a closed-session error instead of being dispatched. -/
inductive CallResult where
  | closedSessionErr
  | dispatched
deriving DecidableEq, Repr

/-- Modelled from the spec: a call on the generic RPC client handle. -/
def rpcClientCall (clientClosed : Bool) : CallResult :=
  if clientClosed then CallResult.closedSessionErr else CallResult.dispatched

/-- `Session.Call` (session.go lines 100-102): delegates to the generic RPC
client handle. -/
def Session.Call (s : Session) : CallResult :=
  rpcClientCall s.clientClosed

/-- `Session.write` (session.go lines 157-166): under `writeLock`, writes the
bytes to the connection; on a write error calls `doClose` with that error and
returns the error; on success returns nil with the session state untouched.
The connection's behaviour is the parameter `err` (the result of
`conn.Write`). -/
def Session.write (s : Session) (err : Option ConnErr) : Session × Option ConnErr :=
  match err with
  | none => (s, none)
  | some e => (doClose s (some CloseReason.writeErr), some e)

/-- The readable side of the connection: the bytes still to be delivered, and
whether exhausting them yields a read error (`errAtEnd = true`) or a clean
EOF (`errAtEnd = false`). -/
structure Conn where
  data : List Nat
  errAtEnd : Bool
deriving DecidableEq, Repr

/-- `io.ReadFull(s.conn, header[:])` for the 4-byte header: succeeds exactly
when 4 bytes are available (a partial header yields `io.ErrUnexpectedEOF`, an
empty stream yields `io.EOF`; both are non-nil errors). -/
def readFull4 (c : Conn) : Option ((Nat × Nat × Nat × Nat) × Conn) :=
  match c.data with
  | b0 :: b1 :: b2 :: b3 :: rest => some ((b0, b1, b2, b3), ⟨rest, c.errAtEnd⟩)
  | _ => none

/-- Modelled from the spec: `decodeHeader` lives in a repository file absent
from `src/`.  Spec §6 fixes the layout: byte 0 is the sub-channel tag, bytes
1..3 are the body length, big-endian. -/
def decodeHeader (b0 b1 b2 b3 : Nat) : Nat × Nat :=
  (b0, b1 * 65536 + b2 * 256 + b3)

/-- `io.Copy(body, &reader)` with `reader = io.LimitedReader{R: s.conn, N: n}`
(session.go lines 133-134): copies until the limited reader reports EOF.
When `n` bytes are available they are copied and the copy succeeds; when the
stream ends early, a clean EOF is *not* an error for `io.Copy` (it returns the
short count with a nil error), while a genuine read error is propagated.
Returns (bytes copied, remaining connection, whether a non-nil error was
returned). -/
def copyLimited (n : Nat) (c : Conn) : List Nat × Conn × Bool :=
  if n ≤ c.data.length then (c.data.take n, ⟨c.data.drop n, c.errAtEnd⟩, false)
  else if c.errAtEnd then (c.data, ⟨[], c.errAtEnd⟩, true)
  else (c.data, ⟨[], c.errAtEnd⟩, false)

/-- Which sub-channel's inbound queue a body is delivered to (`s.streamYin.inC`
or `s.streamYang.inC`). -/
inductive StreamSel where
  | yin
  | yang
deriving DecidableEq, Repr

/-- What became of the buffer obtained from the pool in one iteration: sent on
a sub-channel's inbound queue, handed back via `bp.Put`, or dropped when the
loop exits on the cancellation signal.  `none` when no buffer was obtained. -/
inductive BufFate where
  | delivered
  | returned
  | dropped
deriving DecidableEq, Repr

/-- The observable outcome of one iteration of `Session.readLoop`. -/
structure StepOut where
  delivery : Option (StreamSel × List Nat)
  close : Option CloseReason
  exit : Bool
  conn : Conn
  pool : bufferPool
  fate : Option BufFate
deriving DecidableEq, Repr

/-- One iteration of `Session.readLoop` (session.go lines 117-154):
read a 4-byte header (`io.ReadFull`); decode it; reject a tag other than
yin/yang or a non-positive length by closing with a protocol error; take a
buffer from the pool and copy `bodyLen` bytes from the connection via the
limited reader; on a copy error return the buffer to the pool and close;
otherwise select between the cancellation channel (exit the loop, dropping
the buffer) and sending the body on the inbound queue of the stream matching
the tag.  `closedAtDelivery` is which arm of that `select` fires. -/
def readStep (c : Conn) (bp : bufferPool) (closedAtDelivery : Bool) : StepOut :=
  match readFull4 c with
  | none => ⟨none, some CloseReason.headerReadErr, true, c, bp, none⟩
  | some ((b0, b1, b2, b3), c1) =>
    let hdr := decodeHeader b0 b1 b2 b3
    if (hdr.1 ≠ streamTypeYin ∧ hdr.1 ≠ streamTypeYang) ∨ hdr.2 ≤ 0 then
      ⟨none, some CloseReason.invalidHeader, true, c1, bp, none⟩
    else
      let bp1 := bp.Get
      let r := copyLimited hdr.2 c1
      if r.2.2 then
        ⟨none, some CloseReason.bodyReadErr, true, r.2.1, bp1.Put, some BufFate.returned⟩
      else if closedAtDelivery then
        ⟨none, none, true, r.2.1, bp1, some BufFate.dropped⟩
      else
        let target := if hdr.1 = streamTypeYin then StreamSel.yin else StreamSel.yang
        ⟨some (target, r.1), none, false, r.2.1, bp1, some BufFate.delivered⟩

/-- C1: `Close()` is idempotent and always returns nil: the first close of an
open session sets the closed flag, closes the cancellation channel, the
connection and the RPC client handle; every subsequent `Close` or internal
`doClose` (with any error) is a no-op, and `Close` returns nil in every
case. -/
theorem close_idempotent_returns_nil (s : Session) (e : Option CloseReason)
    (h : s.closed = false) :
    s.Close.2 = none ∧
    s.Close.1.closed = true ∧ s.Close.1.closedCClosed = true ∧
    s.Close.1.connClosed = true ∧ s.Close.1.clientClosed = true ∧
    s.Close.1.Close = (s.Close.1, none) ∧
    doClose s.Close.1 e = s.Close.1 := by
  simp [Session.Close, doClose, h]

/-- Witness for C1 at a freshly constructed session and an internal
fatal-error close. -/
theorem close_idempotent_returns_nil_witness :
    (NewSession true 0).1.closed = false ∧
    ((NewSession true 0).1.Close.2 = none ∧
     (NewSession true 0).1.Close.1.closed = true ∧
     (NewSession true 0).1.Close.1.closedCClosed = true ∧
     (NewSession true 0).1.Close.1.connClosed = true ∧
     (NewSession true 0).1.Close.1.clientClosed = true ∧
     (NewSession true 0).1.Close.1.Close = ((NewSession true 0).1.Close.1, none) ∧
     doClose (NewSession true 0).1.Close.1 (some CloseReason.writeErr) =
       (NewSession true 0).1.Close.1) :=
  ⟨by decide,
   close_idempotent_returns_nil (NewSession true 0).1
     (some CloseReason.writeErr) (by decide)⟩

/-- C2 counterexample: `NewSession` with `bufferPoolSize = -1` (which is ≤ 0)
does not substitute the default 16 — the code only checks `== 0`, so the
negative value is used unchanged. -/
theorem newSession_negative_poolSize_counterexample :
    (NewSession true (-1)).1.poolSize = -1 ∧
    (NewSession true (-1)).1.poolSize ≠ defaultBufferPoolSize := by
  constructor <;> decide

/-- C2 (amended): `NewSession` substitutes the default pool size 16 exactly
when `bufferPoolSize = 0`; every nonzero value, positive or negative, is used
unchanged. -/
theorem newSession_poolSize_amended (r : Bool) (b : Int) :
    (NewSession r b).1.poolSize =
      if b = 0 then defaultBufferPoolSize else b := by
  simp [NewSession]

/-- Witness for the amended C2 at concrete sizes. -/
theorem newSession_poolSize_amended_witness :
    (NewSession false 7).1.poolSize =
      (if (7 : Int) = 0 then defaultBufferPoolSize else 7) ∧
    (NewSession true 0).1.poolSize =
      (if (0 : Int) = 0 then defaultBufferPoolSize else 0) :=
  ⟨newSession_poolSize_amended false 7, newSession_poolSize_amended true 0⟩

/-- C3: role assignment is symmetric-but-opposite: with role flag true the
client codec is bound to the yin stream (tag 1) and the server codec to the
yang stream (tag 2); with role flag false the bindings are swapped; hence a
peer's client stream tag equals the opposite peer's server stream tag,
whatever the two buffer-pool sizes. -/
theorem role_assignment_symmetric (r : Bool) (b bOther : Int) :
    streamTypeYin = 1 ∧ streamTypeYang = 2 ∧
    (NewSession true b).1.clientStreamTag = streamTypeYin ∧
    (NewSession true b).1.serverStreamTag = streamTypeYang ∧
    (NewSession false b).1.clientStreamTag = streamTypeYang ∧
    (NewSession false b).1.serverStreamTag = streamTypeYin ∧
    (NewSession r b).1.clientStreamTag = (NewSession (!r) bOther).1.serverStreamTag ∧
    (NewSession r b).1.serverStreamTag = (NewSession (!r) bOther).1.clientStreamTag := by
  cases r <;> simp [NewSession, streamTypeYin, streamTypeYang]

/-- Witness for C3 at concrete role and pool sizes. -/
theorem role_assignment_symmetric_witness :
    streamTypeYin = 1 ∧ streamTypeYang = 2 ∧
    (NewSession true 0).1.clientStreamTag = streamTypeYin ∧
    (NewSession true 0).1.serverStreamTag = streamTypeYang ∧
    (NewSession false 0).1.clientStreamTag = streamTypeYang ∧
    (NewSession false 0).1.serverStreamTag = streamTypeYin ∧
    (NewSession true 0).1.clientStreamTag = (NewSession (!true) 5).1.serverStreamTag ∧
    (NewSession true 0).1.serverStreamTag = (NewSession (!true) 5).1.clientStreamTag :=
  role_assignment_symmetric true 0 5

/-- C4: a decoded header whose tag is neither yin (1) nor yang (2), or whose
body length is ≤ 0, makes the reader loop close the session with a protocol
error and exit, delivering nothing to either sub-channel and leaving the
buffer pool untouched. -/
theorem invalid_header_closes_session (b0 b1 b2 b3 : Nat) (rest : List Nat)
    (e : Bool) (bp : bufferPool) (cl : Bool)
    (hbad : ((decodeHeader b0 b1 b2 b3).1 ≠ streamTypeYin ∧
             (decodeHeader b0 b1 b2 b3).1 ≠ streamTypeYang) ∨
            (decodeHeader b0 b1 b2 b3).2 ≤ 0) :
    readStep ⟨b0 :: b1 :: b2 :: b3 :: rest, e⟩ bp cl =
      ⟨none, some CloseReason.invalidHeader, true, ⟨rest, e⟩, bp, none⟩ := by
  simp only [readStep, readFull4]
  rw [if_pos hbad]

/-- Witness for C4: a frame with tag 3 is rejected. -/
theorem invalid_header_closes_session_witness :
    (((decodeHeader 3 0 0 5).1 ≠ streamTypeYin ∧
      (decodeHeader 3 0 0 5).1 ≠ streamTypeYang) ∨
     (decodeHeader 3 0 0 5).2 ≤ 0) ∧
    readStep ⟨[3, 0, 0, 5], false⟩ ⟨16, 0⟩ false =
      ⟨none, some CloseReason.invalidHeader, true, ⟨[], false⟩, ⟨16, 0⟩, none⟩ :=
  ⟨by decide,
   invalid_header_closes_session 3 0 0 5 [] false ⟨16, 0⟩ false (by decide)⟩

/-- C5 (code bug): a frame header declaring a 5-byte body followed by only 3
bytes and a clean EOF: `io.Copy` over the limited reader reports the short
read as success (nil error), so the code DELIVERS the truncated 3-byte body to
the yin queue with no close and without returning the buffer to the pool —
contradicting the claim that a short body read releases the buffer and closes
the session. -/
theorem short_body_read_is_delivered :
    readStep ⟨[1, 0, 0, 5, 97, 98, 99], false⟩ ⟨16, 0⟩ false =
      ⟨some (StreamSel.yin, [97, 98, 99]), none, false, ⟨[], false⟩, ⟨16, 0⟩,
        some BufFate.delivered⟩ := by
  decide

/-- C6: a frame with a valid header and a fully readable body is delivered to
the inbound queue of the stream matching the decoded tag (yin for 1, yang for
2 — the reader loop never consults the role flag), while if the cancellation
signal fires at the delivery `select`, the loop exits without delivering and
without closing again. -/
theorem valid_frame_routed_by_tag (b0 b1 b2 b3 : Nat) (rest : List Nat)
    (e : Bool) (bp : bufferPool)
    (hvalid : (decodeHeader b0 b1 b2 b3).1 = streamTypeYin ∨
              (decodeHeader b0 b1 b2 b3).1 = streamTypeYang)
    (hlen : 0 < (decodeHeader b0 b1 b2 b3).2)
    (hbody : (decodeHeader b0 b1 b2 b3).2 ≤ rest.length) :
    readStep ⟨b0 :: b1 :: b2 :: b3 :: rest, e⟩ bp false =
      ⟨some ((if (decodeHeader b0 b1 b2 b3).1 = streamTypeYin then StreamSel.yin
              else StreamSel.yang),
             rest.take (decodeHeader b0 b1 b2 b3).2),
       none, false, ⟨rest.drop (decodeHeader b0 b1 b2 b3).2, e⟩, bp.Get,
       some BufFate.delivered⟩ ∧
    readStep ⟨b0 :: b1 :: b2 :: b3 :: rest, e⟩ bp true =
      ⟨none, none, true, ⟨rest.drop (decodeHeader b0 b1 b2 b3).2, e⟩, bp.Get,
       some BufFate.dropped⟩ := by
  have hcond : ¬(((decodeHeader b0 b1 b2 b3).1 ≠ streamTypeYin ∧
                  (decodeHeader b0 b1 b2 b3).1 ≠ streamTypeYang) ∨
                 (decodeHeader b0 b1 b2 b3).2 ≤ 0) := by
    rintro (⟨h1, h2⟩ | h3)
    · rcases hvalid with h | h
      · exact h1 h
      · exact h2 h
    · omega
  constructor <;>
    · simp only [readStep, readFull4]
      rw [if_neg hcond]
      simp only [copyLimited, if_pos hbody]
      simp

/-- Witness for C6: a 2-byte body tagged yang is routed to the yang queue, and
the same frame is abandoned when the cancellation signal has fired. -/
theorem valid_frame_routed_by_tag_witness :
    ((decodeHeader 2 0 0 2).1 = streamTypeYin ∨
     (decodeHeader 2 0 0 2).1 = streamTypeYang) ∧
    0 < (decodeHeader 2 0 0 2).2 ∧
    (decodeHeader 2 0 0 2).2 ≤ [10, 20, 30].length ∧
    (readStep ⟨2 :: 0 :: 0 :: 2 :: [10, 20, 30], false⟩ ⟨16, 3⟩ false =
      ⟨some ((if (decodeHeader 2 0 0 2).1 = streamTypeYin then StreamSel.yin
              else StreamSel.yang),
             [10, 20, 30].take (decodeHeader 2 0 0 2).2),
       none, false, ⟨[10, 20, 30].drop (decodeHeader 2 0 0 2).2, false⟩,
       bufferPool.Get ⟨16, 3⟩, some BufFate.delivered⟩ ∧
     readStep ⟨2 :: 0 :: 0 :: 2 :: [10, 20, 30], false⟩ ⟨16, 3⟩ true =
      ⟨none, none, true, ⟨[10, 20, 30].drop (decodeHeader 2 0 0 2).2, false⟩,
       bufferPool.Get ⟨16, 3⟩, some BufFate.dropped⟩) :=
  ⟨by decide, by decide, by decide,
   valid_frame_routed_by_tag 2 0 0 2 [10, 20, 30] false ⟨16, 3⟩
     (by decide) (by decide) (by decide)⟩

/-- C7: `Session.write` returns the connection write error to its caller and
(inside the write lock) transitions the session to closed via `doClose` with
the write error; a successful write returns nil and leaves the session state
unchanged. -/
theorem write_error_closes_and_returns (s : Session) (e : ConnErr) :
    (s.write (some e)).2 = some e ∧
    (s.write (some e)).1 = doClose s (some CloseReason.writeErr) ∧
    (s.write (some e)).1.closed = true ∧
    s.write none = (s, none) := by
  refine ⟨rfl, rfl, ?_, rfl⟩
  cases h : s.closed <;> simp [Session.write, doClose, h]

/-- Witness for C7 at a fresh session and a concrete connection error. -/
theorem write_error_closes_and_returns_witness :
    ((NewSession true 0).1.write (some ⟨5⟩)).2 = some ⟨5⟩ ∧
    ((NewSession true 0).1.write (some ⟨5⟩)).1 =
      doClose (NewSession true 0).1 (some CloseReason.writeErr) ∧
    ((NewSession true 0).1.write (some ⟨5⟩)).1.closed = true ∧
    (NewSession true 0).1.write none = ((NewSession true 0).1, none) :=
  write_error_closes_and_returns (NewSession true 0).1 ⟨5⟩

/-- C8: after `Close()` on an open session, a subsequent `Call` hits the
closed RPC client handle and returns the closed-session error immediately. -/
theorem call_after_close_fails (s : Session) (h : s.closed = false) :
    s.Close.1.Call = CallResult.closedSessionErr := by
  simp [Session.Close, Session.Call, doClose, rpcClientCall, h]

/-- Witness for C8 at a freshly constructed session. -/
theorem call_after_close_fails_witness :
    (NewSession true 0).1.closed = false ∧
    (NewSession true 0).1.Close.1.Call = CallResult.closedSessionErr :=
  ⟨by decide, call_after_close_fails (NewSession true 0).1 (by decide)⟩

/-- C9: `NewSession` never fails: for every role flag and buffer-pool size,
negative sizes included, it returns an open session and a nil error. -/
theorem newSession_never_fails (r : Bool) (b : Int) :
    (NewSession r b).2 = none ∧ (NewSession r b).1.closed = false := by
  simp [NewSession]

/-- Witness for C9 at a negative pool size. -/
theorem newSession_never_fails_witness :
    (NewSession false (-3)).2 = none ∧ (NewSession false (-3)).1.closed = false :=
  newSession_never_fails false (-3)

/-- C10: buffer ownership is exclusive per reader-loop iteration: the obtained
buffer is delivered exactly when a delivery is made; it is returned to the
pool only on a body-read error (with no delivery, the pool receiving it back);
it is dropped only when the cancellation signal fired at delivery (with no
delivery); and when no buffer was obtained the pool is untouched and nothing
is delivered. -/
theorem buffer_fate_exclusive (c : Conn) (bp : bufferPool) (cl : Bool) :
    ((readStep c bp cl).fate = some BufFate.delivered ↔
      ((readStep c bp cl).delivery).isSome) ∧
    ((readStep c bp cl).fate = some BufFate.returned →
      (readStep c bp cl).close = some CloseReason.bodyReadErr ∧
      (readStep c bp cl).delivery = none ∧
      (readStep c bp cl).pool = bufferPool.Put (bufferPool.Get bp)) ∧
    ((readStep c bp cl).fate = some BufFate.dropped →
      cl = true ∧ (readStep c bp cl).exit = true ∧
      (readStep c bp cl).delivery = none ∧ (readStep c bp cl).close = none) ∧
    ((readStep c bp cl).fate = none →
      (readStep c bp cl).delivery = none ∧ (readStep c bp cl).pool = bp) := by
  rcases hr : readFull4 c with _ | ⟨⟨b0, b1, b2, b3⟩, c1⟩
  · simp [readStep, hr]
  · simp only [readStep, hr]
    split_ifs with h1 h2 h3 <;> simp_all

/-- Witness for C10 on a concrete delivered frame. -/
theorem buffer_fate_exclusive_witness :
    (readStep ⟨[1, 0, 0, 1, 9], false⟩ ⟨16, 0⟩ false).fate =
        some BufFate.delivered ↔
      ((readStep ⟨[1, 0, 0, 1, 9], false⟩ ⟨16, 0⟩ false).delivery).isSome :=
  (buffer_fate_exclusive ⟨[1, 0, 0, 1, 9], false⟩ ⟨16, 0⟩ false).1

end Bidirpc
